import Mathlib

/-!
Verification of the MufflerManOS analytics module.

This development shallowly embeds `src/modules/analytics/analytics.ts`
(class `AnalyticsModule`) and the realtime broadcast loop of the server
entry point.  JavaScript `Map<string, V>` objects are modelled as
insertion-ordered association lists (`Map.set` updates an existing key in
place and appends a fresh one, which `setA` mirrors); `Date` values are
modelled as their epoch-millisecond timestamps (`Nat`); `async` methods
that can reject are modelled with `Except`; `Math.random()` draws are
explicit rational parameters.  The six private facet generators
(`generateRevenueAnalytics`, ..., `generateTrendAnalytics`) produce
randomized demo payloads whose contents the cache logic never inspects;
they are modelled as a provider function `gen : Facet → String → Except ε α`
over an abstract facet payload type `α`, and the embedding records which
facets a call invokes.
-/

namespace MufflerMan

/-- Lookup in an insertion-ordered association list, modelling `Map.get`. -/
def lookupA {β : Type _} (k : String) : List (String × β) → Option β
  | [] => none
  | (k', v) :: rest => if k' = k then some v else lookupA k rest

/-- Update/insert in an insertion-ordered association list, modelling `Map.set`:
an existing key is overwritten in place, a fresh key is appended. -/
def setA {β : Type _} (k : String) (v : β) : List (String × β) → List (String × β)
  | [] => [(k, v)]
  | (k', v') :: rest => if k' = k then (k, v) :: rest else (k', v') :: setA k v rest

theorem lookupA_setA_self {β : Type _} (k : String) (v : β) :
    ∀ l : List (String × β), lookupA k (setA k v l) = some v := by
  intro l
  induction l with
  | nil => simp [lookupA, setA]
  | cons hd tl ih =>
    obtain ⟨k', v'⟩ := hd
    by_cases h : k' = k
    · simp [lookupA, setA, h]
    · simp [lookupA, setA, h, ih]

theorem lookupA_setA_ne {β : Type _} (k k2 : String) (v : β) (h : k2 ≠ k) :
    ∀ l : List (String × β), lookupA k2 (setA k v l) = lookupA k2 l := by
  intro l
  induction l with
  | nil => simp [lookupA, setA, Ne.symm h]
  | cons hd tl ih =>
    obtain ⟨k', v'⟩ := hd
    by_cases hk : k' = k
    · subst hk
      simp [lookupA, setA, Ne.symm h]
    · simp [setA, if_neg hk, lookupA, ih]

/-- The six analytics facets assembled by `generateAnalyticsData`. -/
inductive Facet where
  | revenue
  | operations
  | customers
  | inventory
  | performance
  | trends
deriving DecidableEq

/-- `AnalyticsData`: the composite bundle of the six facets plus its
`generatedAt` timestamp (interface `AnalyticsData`), with the facet
payloads abstracted to `α`. -/
structure AnalyticsData (α : Type _) where
  revenue : α
  operations : α
  customers : α
  inventory : α
  performance : α
  trends : α
  generatedAt : Nat
deriving DecidableEq

/-- One entry of the private `dataCache` map: `{ data, timestamp }`. -/
structure CacheEntry (α : Type _) where
  data : AnalyticsData α
  timestamp : Nat
deriving DecidableEq

/-- The private `dataCache : Map<string, { data, timestamp }>` field. -/
abbrev DataCache (α : Type _) := List (String × CacheEntry α)

/-- `cacheExpiry = 5 * 60 * 1000` (five minutes, in milliseconds). -/
def cacheExpiry : Nat := 5 * 60 * 1000

/-- The six facets in the order the object literal inside
`generateAnalyticsData` awaits them. -/
def facetOrder : List Facet :=
  [Facet.revenue, Facet.operations, Facet.customers,
   Facet.inventory, Facet.performance, Facet.trends]

/-- Result of one `generateAnalyticsData` call: the returned bundle (or the
propagated rejection), the cache state after the call, and the list of
facet-generator invocations the call performed. -/
structure GenOutcome (ε α : Type _) where
  result : Except ε (AnalyticsData α)
  cache : DataCache α
  calls : List Facet

/-- The fall-through (cache-miss) body of `generateAnalyticsData`, below the
cache check: awaits the six facet generators in order — a rejection aborts
the object literal, propagates, and leaves the cache untouched — then
stores `{ data, timestamp: now }` under `cacheKey` and returns the bundle. -/
def generateAnalyticsDataMiss {ε α : Type _} (gen : Facet → String → Except ε α)
    (timeRange : String) (now : Nat) (cache : DataCache α) (cacheKey : String) :
    GenOutcome ε α :=
  match gen Facet.revenue timeRange with
  | .error e => ⟨.error e, cache, [Facet.revenue]⟩
  | .ok rv =>
    match gen Facet.operations timeRange with
    | .error e => ⟨.error e, cache, [Facet.revenue, Facet.operations]⟩
    | .ok op =>
      match gen Facet.customers timeRange with
      | .error e => ⟨.error e, cache, [Facet.revenue, Facet.operations, Facet.customers]⟩
      | .ok cu =>
        match gen Facet.inventory timeRange with
        | .error e => ⟨.error e, cache,
            [Facet.revenue, Facet.operations, Facet.customers, Facet.inventory]⟩
        | .ok iv =>
          match gen Facet.performance timeRange with
          | .error e => ⟨.error e, cache,
              [Facet.revenue, Facet.operations, Facet.customers, Facet.inventory,
               Facet.performance]⟩
          | .ok pf =>
            match gen Facet.trends timeRange with
            | .error e => ⟨.error e, cache, facetOrder⟩
            | .ok tr =>
              let data : AnalyticsData α := ⟨rv, op, cu, iv, pf, tr, now⟩
              ⟨.ok data, setA cacheKey ⟨data, now⟩ cache, facetOrder⟩

/-- `generateAnalyticsData(timeRange)`: builds `cacheKey = "analytics_" + timeRange`,
returns the cached bundle when an entry exists with
`now - cached.timestamp < cacheExpiry`, and otherwise runs the miss body.
The runtime never validates `timeRange` (callers such as `generateReport`
pass an arbitrary string through `as any`). -/
def generateAnalyticsData {ε α : Type _} (gen : Facet → String → Except ε α)
    (timeRange : String) (now : Nat) (cache : DataCache α) : GenOutcome ε α :=
  match lookupA ("analytics_" ++ timeRange) cache with
  | some cached =>
    if now - cached.timestamp < cacheExpiry then
      ⟨.ok cached.data, cache, []⟩
    else
      generateAnalyticsDataMiss gen timeRange now cache ("analytics_" ++ timeRange)
  | none => generateAnalyticsDataMiss gen timeRange now cache ("analytics_" ++ timeRange)

/-- The miss/hit condition of the cache check in `generateAnalyticsData`:
an entry is a miss when it is absent or at least `cacheExpiry` old. -/
def analyticsCacheMiss {α : Type _} (cache : DataCache α) (key : String) (now : Nat) : Prop :=
  lookupA key cache = none ∨
    ∃ e, lookupA key cache = some e ∧ cacheExpiry ≤ now - e.timestamp

/-- The `type` union of interface `Report`. -/
inductive ReportType where
  | daily
  | weekly
  | monthly
  | quarterly
  | annual
  | custom
deriving DecidableEq

/-- Interface `Report` (the optional `parameters` map is never set by
`generateReport` and is omitted from the record it builds). -/
structure Report (α : Type _) where
  id : String
  name : String
  type : ReportType
  data : AnalyticsData α
  generatedBy : String
  generatedAt : Nat
deriving DecidableEq

/-- Result of one `generateReport` call: the returned report (or propagated
rejection), the cache and report-store states after the call, and the facet
invocations performed. -/
structure ReportOutcome (ε α : Type _) where
  result : Except ε (Report α)
  cache : DataCache α
  reports : List (String × Report α)
  calls : List Facet

/-- `generateReport(name, type, timeRange, generatedBy)`: awaits
`generateAnalyticsData(timeRange as any)` — an arbitrary string flows in
unvalidated — wraps the bundle into a report with a fresh id (modelled by
`freshId`, for `report-${Date.now()}-${random}`), stores it, returns it.
A rejection of the data call propagates and stores nothing. -/
def generateReport {ε α : Type _} (gen : Facet → String → Except ε α)
    (name : String) (ty : ReportType) (timeRange : String) (generatedBy : String)
    (now : Nat) (freshId : String) (cache : DataCache α)
    (reports : List (String × Report α)) : ReportOutcome ε α :=
  let r := generateAnalyticsData gen timeRange now cache
  match r.result with
  | .error e => ⟨.error e, r.cache, reports, r.calls⟩
  | .ok data =>
    let report : Report α := ⟨freshId, name, ty, data, generatedBy, now⟩
    ⟨.ok report, r.cache, setA freshId report reports, r.calls⟩

/-- The comparator of `getAllReports`:
`(a, b) => b.generatedAt.getTime() - a.generatedAt.getTime()`, rendered as
the precedence test "a may stay before b", i.e. the comparator is `≤ 0`. -/
def reportBefore {α : Type _} (a b : Report α) : Bool :=
  b.generatedAt ≤ a.generatedAt

/-- `getAllReports()`: `Array.from(reports.values()).sort(comparator)` —
the map's values in insertion order, run through the engine's stable sort. -/
def getAllReports {α : Type _} (reports : List (String × Report α)) : List (Report α) :=
  (reports.map Prod.snd).mergeSort reportBefore

/-- `getReport(id)`: plain map lookup, `null` for a missing id. -/
def getReport {α : Type _} (reports : List (String × Report α)) (id : String) :
    Option (Report α) :=
  lookupA id reports

/-- The rejection of `exportReport` on a missing id
(`throw new Error("Report ... not found")`). -/
inductive ExportError where
  | notFound : String → ExportError
deriving DecidableEq

/-- The decimal digit character of `n` for `n < 10` (all call sites below
pass a reduced value `_ % 10`). -/
def digitChar (n : Nat) : Char :=
  match n with
  | 0 => '0' | 1 => '1' | 2 => '2' | 3 => '3' | 4 => '4'
  | 5 => '5' | 6 => '6' | 7 => '7' | 8 => '8' | _ => '9'

/-- Two-digit zero-padded decimal field, as `Date.prototype.toISOString`
renders months, days, hours, minutes and seconds. -/
def pad2 (n : Nat) : String :=
  String.mk [digitChar (n / 10 % 10), digitChar (n % 10)]

/-- Three-digit zero-padded milliseconds field of the ISO rendering. -/
def pad3 (n : Nat) : String :=
  String.mk [digitChar (n / 100 % 10), digitChar (n / 10 % 10),
             digitChar (n % 10)]

/-- Four-digit zero-padded year field of the ISO rendering. -/
def pad4 (n : Nat) : String :=
  String.mk [digitChar (n / 1000 % 10), digitChar (n / 100 % 10),
             digitChar (n / 10 % 10), digitChar (n % 10)]

/-- Proleptic-Gregorian civil date `(year, month, day)` of a day count since
the Unix epoch (the standard era-decomposition algorithm, specialised to
nonnegative day counts). -/
def civilFromDays (z0 : Nat) : Nat × Nat × Nat :=
  let z := z0 + 719468
  let era := z / 146097
  let doe := z % 146097
  let yoe := (doe - doe / 1460 + doe / 36524 - doe / 146096) / 365
  let y := yoe + era * 400
  let doy := doe - (365 * yoe + yoe / 4 - yoe / 100)
  let mp := (5 * doy + 2) / 153
  let d := doy - (153 * mp + 2) / 5 + 1
  let m := if mp < 10 then mp + 3 else mp - 9
  (if m ≤ 2 then y + 1 else y, m, d)

/-- The `YYYY-MM-DD` date part of the UTC ISO rendering of an
epoch-millisecond timestamp. -/
def ymdString (ms : Nat) : String :=
  let c := civilFromDays (ms / 86400000)
  pad4 c.1 ++ "-" ++ pad2 c.2.1 ++ "-" ++ pad2 c.2.2

/-- The `HH:mm:ss.sssZ` time-of-day suffix of the UTC ISO rendering. -/
def isoTimeSuffix (ms : Nat) : String :=
  pad2 (ms % 86400000 / 3600000) ++ ":" ++ pad2 (ms % 3600000 / 60000)
    ++ ":" ++ pad2 (ms % 60000 / 1000) ++ "." ++ pad3 (ms % 1000) ++ "Z"

/-- `Date.prototype.toISOString()` for an epoch-millisecond timestamp:
`YYYY-MM-DDTHH:mm:ss.sssZ` in UTC. -/
def toISOString (ms : Nat) : String :=
  ymdString ms ++ "T" ++ isoTimeSuffix ms

/-- `generatedAt.toISOString().split("T")[0]`: the characters of the ISO
string before its first `T`. -/
def isoDatePrefix (ms : Nat) : String :=
  String.mk ((toISOString ms).data.takeWhile (fun c => c != 'T'))

/-- `exportReport(reportId, format)`: throws when the id is absent from the
report map, otherwise returns the filename
`${report.name}_${report.generatedAt.toISOString().split("T")[0]}.${format}`
(the simulated 1-second export delay has no observable effect). -/
def exportReport {α : Type _} (reports : List (String × Report α))
    (reportId : String) (format : String) : Except ExportError String :=
  match lookupA reportId reports with
  | none => .error (.notFound reportId)
  | some report =>
    .ok (report.name ++ "_" ++ isoDatePrefix report.generatedAt ++ "." ++ format)

/-- The `type` union of interface `DashboardWidget`. -/
inductive WidgetType where
  | chart
  | metric
  | table
  | gauge
  | list
deriving DecidableEq

/-- The grid `position` record of a widget. -/
structure WidgetPosition where
  x : Nat
  y : Nat
  width : Nat
  height : Nat
deriving DecidableEq

/-- Interface `DashboardWidget`; the `configuration` record holds string
values in every configuration the module constructs. -/
structure DashboardWidget where
  id : String
  type : WidgetType
  title : String
  dataSource : String
  configuration : List (String × String)
  position : WidgetPosition
deriving DecidableEq

/-- Interface `DashboardLayout`. -/
structure DashboardLayout where
  columns : Nat
  rows : Nat
  widgets : List DashboardWidget
deriving DecidableEq

/-- Interface `Dashboard`, with `Date` fields as epoch milliseconds. -/
structure Dashboard where
  id : String
  name : String
  description : String
  widgets : List DashboardWidget
  layout : DashboardLayout
  isPublic : Bool
  createdBy : String
  createdAt : Nat
  updatedAt : Nat
deriving DecidableEq

/-- `Partial<Dashboard>`: each field optionally present. -/
structure DashboardUpdate where
  id : Option String
  name : Option String
  description : Option String
  widgets : Option (List DashboardWidget)
  layout : Option DashboardLayout
  isPublic : Option Bool
  createdBy : Option String
  createdAt : Option Nat
  updatedAt : Option Nat
deriving DecidableEq

/-- The update `{ name: x }` and nothing else. -/
def nameOnlyUpdate (x : String) : DashboardUpdate :=
  ⟨none, some x, none, none, none, none, none, none, none⟩

/-- The spread `{ ...dashboard, ...updates, updatedAt: new Date() }`:
every provided field overrides the stored one, then `updatedAt` is
unconditionally stamped with the current time. -/
def mergeDashboard (d : Dashboard) (u : DashboardUpdate) (now : Nat) : Dashboard :=
  { id := u.id.getD d.id
    name := u.name.getD d.name
    description := u.description.getD d.description
    widgets := u.widgets.getD d.widgets
    layout := u.layout.getD d.layout
    isPublic := u.isPublic.getD d.isPublic
    createdBy := u.createdBy.getD d.createdBy
    createdAt := u.createdAt.getD d.createdAt
    updatedAt := now }

/-- `updateDashboard(id, updates)`: merges into the stored record and
re-stores it under the same key when the id exists; silently does nothing
otherwise. -/
def updateDashboard (dashboards : List (String × Dashboard)) (id : String)
    (updates : DashboardUpdate) (now : Nat) : List (String × Dashboard) :=
  match lookupA id dashboards with
  | some d => setA id (mergeDashboard d updates now) dashboards
  | none => dashboards

/-- `getDashboard(id)`: plain map lookup, `null` for a missing id. -/
def getDashboard (dashboards : List (String × Dashboard)) (id : String) :
    Option Dashboard :=
  lookupA id dashboards

/-- `getAllDashboards()`: `Array.from(dashboards.values())`. -/
def getAllDashboards (dashboards : List (String × Dashboard)) : List Dashboard :=
  dashboards.map Prod.snd

/-- The sample dashboard the constructor seeds (`initializeSampleDashboards`);
its `createdAt`/`updatedAt` are the construction instant `now`. -/
def sampleDashboard (now : Nat) : Dashboard :=
  { id := "dashboard-001"
    name := "Operations Overview"
    description := "Real-time overview of shop operations and key metrics"
    widgets :=
      [{ id := "widget-001"
         type := WidgetType.metric
         title := "Today\x27s Revenue"
         dataSource := "revenue.today"
         configuration := [("format", "currency"), ("color", "green")]
         position := ⟨0, 0, 2, 1⟩ },
       { id := "widget-002"
         type := WidgetType.metric
         title := "Active Jobs"
         dataSource := "operations.activeJobs"
         configuration := [("format", "number"), ("color", "blue")]
         position := ⟨2, 0, 2, 1⟩ },
       { id := "widget-003"
         type := WidgetType.chart
         title := "Revenue Trend"
         dataSource := "revenue.monthly"
         configuration := [("chartType", "line"), ("timeRange", "30d")]
         position := ⟨0, 1, 4, 2⟩ }]
    layout := ⟨4, 3, []⟩
    isPublic := true
    createdBy := "system"
    createdAt := now
    updatedAt := now }

/-- `initializeSampleDashboards`, run by the constructor on the empty
dashboard map: stores the sample dashboard under its id. -/
def initializeSampleDashboards (now : Nat) : List (String × Dashboard) :=
  setA (sampleDashboard now).id (sampleDashboard now) []

/-- The `type` field of an alert produced by `checkAlerts`. -/
inductive AlertType where
  | warning
  | error
  | info
deriving DecidableEq

/-- The `severity` field of an alert produced by `checkAlerts`. -/
inductive Severity where
  | low
  | medium
  | high
deriving DecidableEq

/-- The anonymous alert record `checkAlerts` returns. -/
structure Alert where
  type : AlertType
  message : String
  severity : Severity
  timestamp : Nat
deriving DecidableEq

/-- `checkAlerts()`: takes no snapshot of inventory or equipment at all; the
"low stock" warning is pushed iff the first `Math.random()` draw exceeds 0.7
and the "maintenance" error iff the second draw exceeds 0.8 (`r1`, `r2` are
those draws). -/
def checkAlerts (r1 r2 : ℚ) (now : Nat) : List Alert :=
  (if r1 > 7/10 then
    [⟨AlertType.warning, "5 items are running low on stock", Severity.medium, now⟩]
   else []) ++
  (if r2 > 8/10 then
    [⟨AlertType.error, "Lift 2 requires maintenance", Severity.high, now⟩]
   else [])

/-- The snapshot record returned by `getRealTimeMetrics` (constant in the
source). -/
structure RealTimeMetrics where
  currentJobs : Nat
  availableBays : Nat
  todayRevenue : ℚ
  todayJobs : Nat
  activeTechnicians : Nat
  queueLength : Nat
deriving DecidableEq

/-- `getRealTimeMetrics()`: the fixed snapshot the module returns. -/
def getRealTimeMetrics : RealTimeMetrics :=
  ⟨8, 1, 1250.75, 12, 3, 4⟩

/-- What one 5-second broadcast tick produced: an emitted snapshot on
success, a console log on failure — never an escaping exception. -/
structure TickEffect where
  emitted : Option RealTimeMetrics
  logged : Option String
deriving DecidableEq

/-- The body of the `setInterval` callback in `setupWebSockets`: the whole
compute-and-emit sequence sits inside `try { ... } catch { console.error }`,
so the callback is a total function of the tick's outcome — a failure is
converted into a log entry instead of propagating out of the timer. -/
def broadcastTick (outcome : Except String RealTimeMetrics) : TickEffect :=
  match outcome with
  | .ok m => ⟨some m, none⟩
  | .error e => ⟨none, some e⟩

/-- The broadcast timer: `setInterval` fires the callback on every tick of
its schedule, independent of what earlier callbacks did; a run over a list
of per-tick outcomes is therefore a plain map of the callback. -/
def runBroadcaster (outcomes : List (Except String RealTimeMetrics)) : List TickEffect :=
  outcomes.map broadcastTick

/-- The bundle assembled on a successful miss when facet `f` yields `v f`. -/
def freshBundle {α : Type _} (v : Facet → α) (t : Nat) : AnalyticsData α :=
  ⟨v Facet.revenue, v Facet.operations, v Facet.customers,
   v Facet.inventory, v Facet.performance, v Facet.trends, t⟩

theorem generateAnalyticsData_hit {ε α : Type _} (gen : Facet → String → Except ε α)
    (tr : String) (t : Nat) (c : DataCache α) (e : CacheEntry α)
    (h1 : lookupA ("analytics_" ++ tr) c = some e)
    (h2 : t - e.timestamp < cacheExpiry) :
    generateAnalyticsData gen tr t c = ⟨.ok e.data, c, []⟩ := by
  unfold generateAnalyticsData
  split
  · rename_i cached heq
    rw [h1] at heq
    injection heq with heq'
    subst heq'
    rw [if_pos h2]
  · rename_i heq
    rw [h1] at heq
    exact absurd heq (by simp)

theorem generateAnalyticsData_miss_eq {ε α : Type _} (gen : Facet → String → Except ε α)
    (tr : String) (t : Nat) (c : DataCache α)
    (h : analyticsCacheMiss c ("analytics_" ++ tr) t) :
    generateAnalyticsData gen tr t c =
      generateAnalyticsDataMiss gen tr t c ("analytics_" ++ tr) := by
  unfold generateAnalyticsData
  split
  · rename_i cached heq
    rcases h with hnone | ⟨e, hsome, hstale⟩
    · rw [heq] at hnone
      exact absurd hnone (by simp)
    · rw [heq] at hsome
      injection hsome with hsome'
      subst hsome'
      rw [if_neg (by omega)]
  · rfl

theorem generateAnalyticsDataMiss_ok {ε α : Type _} (gen : Facet → String → Except ε α)
    (v : Facet → α) (tr : String) (t : Nat) (c : DataCache α) (key : String)
    (hgen : ∀ f, gen f tr = Except.ok (v f)) :
    generateAnalyticsDataMiss gen tr t c key =
      ⟨.ok (freshBundle v t), setA key ⟨freshBundle v t, t⟩ c, facetOrder⟩ := by
  simp only [generateAnalyticsDataMiss, hgen, freshBundle]

theorem generateAnalyticsData_calls_take {ε α : Type _} (gen : Facet → String → Except ε α)
    (tr : String) (t : Nat) (c : DataCache α) :
    ∃ n, (generateAnalyticsData gen tr t c).calls = facetOrder.take n := by
  unfold generateAnalyticsData generateAnalyticsDataMiss
  repeat' split
  all_goals first
    | exact ⟨0, rfl⟩ | exact ⟨1, rfl⟩ | exact ⟨2, rfl⟩ | exact ⟨3, rfl⟩
    | exact ⟨4, rfl⟩ | exact ⟨5, rfl⟩ | exact ⟨6, rfl⟩

theorem generateAnalyticsData_calls_count {ε α : Type _} (gen : Facet → String → Except ε α)
    (tr : String) (t : Nat) (c : DataCache α) (f : Facet) :
    ((generateAnalyticsData gen tr t c).calls).count f ≤ 1 := by
  obtain ⟨n, hn⟩ := generateAnalyticsData_calls_take gen tr t c
  rw [hn]
  calc (facetOrder.take n).count f ≤ facetOrder.count f :=
        (List.take_sublist n facetOrder).count_le f
    _ ≤ 1 := by cases f <;> decide

/-- C1: for every bucket, a second `generateAnalyticsData` call made while
the cache entry for that bucket is strictly younger than the 5-minute TTL
returns the cached bundle, performs no facet-generator (provider) calls and
leaves the cache as it was, so across the two calls each facet generator is
invoked at most once. -/
theorem generateAnalyticsData_cache_hit {ε α : Type _} (gen : Facet → String → Except ε α)
    (tr : String) (t1 t2 : Nat) (c : DataCache α) (e : CacheEntry α)
    (h1 : lookupA ("analytics_" ++ tr) (generateAnalyticsData gen tr t1 c).cache = some e)
    (h2 : t2 - e.timestamp < cacheExpiry) :
    generateAnalyticsData gen tr t2 (generateAnalyticsData gen tr t1 c).cache
      = ⟨.ok e.data, (generateAnalyticsData gen tr t1 c).cache, []⟩ ∧
    ∀ f : Facet,
      ((generateAnalyticsData gen tr t1 c).calls ++
        (generateAnalyticsData gen tr t2 (generateAnalyticsData gen tr t1 c).cache).calls).count f
        ≤ 1 := by
  have hsnd := generateAnalyticsData_hit gen tr t2
    (generateAnalyticsData gen tr t1 c).cache e h1 h2
  refine ⟨hsnd, fun f => ?_⟩
  rw [hsnd]
  simpa using generateAnalyticsData_calls_count gen tr t1 c f

/-- Provider that always succeeds with payload `0`, for the witnesses. -/
def genOK : Facet → String → Except String Nat := fun _ _ => .ok 0

/-- Witness for C1: on an empty cache, a call at `t = 0` for bucket `month`
populates the cache; a second call at `t = 1000` (within the TTL) returns
the cached bundle with no facet calls, and each facet was generated at most
once overall. -/
theorem generateAnalyticsData_cache_hit_witness :
    (lookupA ("analytics_" ++ "month")
        (generateAnalyticsData genOK "month" 0 ([] : DataCache Nat)).cache
        = some ⟨⟨0, 0, 0, 0, 0, 0, 0⟩, 0⟩ ∧
      1000 - (⟨⟨0, 0, 0, 0, 0, 0, 0⟩, 0⟩ : CacheEntry Nat).timestamp < cacheExpiry) ∧
    (generateAnalyticsData genOK "month" 1000
        (generateAnalyticsData genOK "month" 0 ([] : DataCache Nat)).cache
      = ⟨.ok (⟨⟨0, 0, 0, 0, 0, 0, 0⟩, 0⟩ : CacheEntry Nat).data,
         (generateAnalyticsData genOK "month" 0 ([] : DataCache Nat)).cache, []⟩ ∧
     ∀ f : Facet,
       ((generateAnalyticsData genOK "month" 0 ([] : DataCache Nat)).calls ++
         (generateAnalyticsData genOK "month" 1000
           (generateAnalyticsData genOK "month" 0 ([] : DataCache Nat)).cache).calls).count f
         ≤ 1) :=
  ⟨⟨by decide, by decide⟩,
   generateAnalyticsData_cache_hit genOK "month" 0 1000 [] ⟨⟨0, 0, 0, 0, 0, 0, 0⟩, 0⟩
     (by decide) (by decide)⟩

/-- C2: the cache check of `generateAnalyticsData` treats an entry as a miss
exactly when it is absent or `now - cachedAt ≥ cacheExpiry` (the 5-minute
boundary itself is a miss): on a miss with all facet generators succeeding,
the call invokes all six generators and stores a fresh entry stamped with
the current time; otherwise it performs no generator calls and leaves the
cache untouched. -/
theorem generateAnalyticsData_miss_refresh {ε α : Type _} (gen : Facet → String → Except ε α)
    (v : Facet → α) (tr : String) (t : Nat) (c : DataCache α)
    (hgen : ∀ f, gen f tr = Except.ok (v f)) :
    (analyticsCacheMiss c ("analytics_" ++ tr) t →
      generateAnalyticsData gen tr t c =
        ⟨.ok (freshBundle v t),
         setA ("analytics_" ++ tr) ⟨freshBundle v t, t⟩ c, facetOrder⟩ ∧
      lookupA ("analytics_" ++ tr) (generateAnalyticsData gen tr t c).cache =
        some ⟨freshBundle v t, t⟩) ∧
    (¬ analyticsCacheMiss c ("analytics_" ++ tr) t →
      (generateAnalyticsData gen tr t c).calls = [] ∧
      (generateAnalyticsData gen tr t c).cache = c) := by
  constructor
  · intro hmiss
    have heq : generateAnalyticsData gen tr t c =
        ⟨.ok (freshBundle v t),
         setA ("analytics_" ++ tr) ⟨freshBundle v t, t⟩ c, facetOrder⟩ := by
      rw [generateAnalyticsData_miss_eq gen tr t c hmiss,
          generateAnalyticsDataMiss_ok gen v tr t c _ hgen]
    refine ⟨heq, ?_⟩
    rw [heq]
    exact lookupA_setA_self _ _ _
  · intro hhit
    simp only [analyticsCacheMiss, not_or, not_exists, not_and] at hhit
    obtain ⟨hne, hall⟩ := hhit
    obtain ⟨e, he⟩ := Option.ne_none_iff_exists'.mp hne
    have hfresh : t - e.timestamp < cacheExpiry := by
      have := hall e he
      omega
    rw [generateAnalyticsData_hit gen tr t c e he hfresh]
    exact ⟨rfl, rfl⟩

/-- Witness for C2: a `day` entry cached at `t = 0` and looked up at exactly
`t = cacheExpiry` (the 300000 ms boundary) is a miss — the call re-invokes
all six generators and overwrites the entry with `cachedAt = 300000` — while
the same entry looked up at `t = 299999` is a hit with no generator calls. -/
theorem generateAnalyticsData_miss_refresh_witness :
    (analyticsCacheMiss
        ([("analytics_day", ⟨⟨9, 9, 9, 9, 9, 9, 0⟩, 0⟩)] : DataCache Nat)
        ("analytics_" ++ "day") 300000 ∧
      generateAnalyticsData genOK "day" 300000
          [("analytics_day", ⟨⟨9, 9, 9, 9, 9, 9, 0⟩, 0⟩)] =
        ⟨.ok (freshBundle (fun _ => 0) 300000),
         setA ("analytics_" ++ "day") ⟨freshBundle (fun _ => 0) 300000, 300000⟩
           [("analytics_day", ⟨⟨9, 9, 9, 9, 9, 9, 0⟩, 0⟩)], facetOrder⟩ ∧
      lookupA ("analytics_" ++ "day")
          (generateAnalyticsData genOK "day" 300000
            [("analytics_day", ⟨⟨9, 9, 9, 9, 9, 9, 0⟩, 0⟩)]).cache =
        some ⟨freshBundle (fun _ => 0) 300000, 300000⟩) ∧
    (¬ analyticsCacheMiss
        ([("analytics_day", ⟨⟨9, 9, 9, 9, 9, 9, 0⟩, 0⟩)] : DataCache Nat)
        ("analytics_" ++ "day") 299999 →
      (generateAnalyticsData genOK "day" 299999
          [("analytics_day", ⟨⟨9, 9, 9, 9, 9, 9, 0⟩, 0⟩)]).calls = [] ∧
      (generateAnalyticsData genOK "day" 299999
          [("analytics_day", ⟨⟨9, 9, 9, 9, 9, 9, 0⟩, 0⟩)]).cache =
        [("analytics_day", ⟨⟨9, 9, 9, 9, 9, 9, 0⟩, 0⟩)]) :=
  ⟨⟨Or.inr ⟨⟨⟨9, 9, 9, 9, 9, 9, 0⟩, 0⟩, by decide, by decide⟩,
    (generateAnalyticsData_miss_refresh genOK (fun _ => 0) "day" 300000
        [("analytics_day", ⟨⟨9, 9, 9, 9, 9, 9, 0⟩, 0⟩)] (fun _ => rfl)).1
      (Or.inr ⟨⟨⟨9, 9, 9, 9, 9, 9, 0⟩, 0⟩, by decide, by decide⟩)⟩,
   (generateAnalyticsData_miss_refresh genOK (fun _ => 0) "day" 299999
       [("analytics_day", ⟨⟨9, 9, 9, 9, 9, 9, 0⟩, 0⟩)] (fun _ => rfl)).2⟩

/-- C3: on a cache miss where some facet generator fails, the whole
`generateAnalyticsData` call rejects with that facet's error and the cache
is left exactly as it was before the call — no partial bundle is written. -/
theorem generateAnalyticsData_facet_failure_atomic {ε α : Type _}
    (gen : Facet → String → Except ε α) (tr : String) (t : Nat) (c : DataCache α)
    (hmiss : analyticsCacheMiss c ("analytics_" ++ tr) t)
    (hfail : ∃ f e, gen f tr = Except.error e) :
    ∃ e, (generateAnalyticsData gen tr t c).result = Except.error e ∧
      (generateAnalyticsData gen tr t c).cache = c ∧
      ∃ f, gen f tr = Except.error e := by
  obtain ⟨f0, e0, hf⟩ := hfail
  rw [generateAnalyticsData_miss_eq gen tr t c hmiss]
  unfold generateAnalyticsDataMiss
  cases h1 : gen Facet.revenue tr with
  | error e => exact ⟨e, rfl, rfl, Facet.revenue, h1⟩
  | ok rv =>
  cases h2 : gen Facet.operations tr with
  | error e => exact ⟨e, rfl, rfl, Facet.operations, h2⟩
  | ok op =>
  cases h3 : gen Facet.customers tr with
  | error e => exact ⟨e, rfl, rfl, Facet.customers, h3⟩
  | ok cu =>
  cases h4 : gen Facet.inventory tr with
  | error e => exact ⟨e, rfl, rfl, Facet.inventory, h4⟩
  | ok iv =>
  cases h5 : gen Facet.performance tr with
  | error e => exact ⟨e, rfl, rfl, Facet.performance, h5⟩
  | ok pf =>
  cases h6 : gen Facet.trends tr with
  | error e => exact ⟨e, rfl, rfl, Facet.trends, h6⟩
  | ok tw =>
  cases f0 <;> simp_all

/-- Provider that fails on the `trends` facet only, for the C3 witness. -/
def genTrendsFail : Facet → String → Except String Nat := fun f _ =>
  match f with
  | Facet.trends => .error "boom"
  | _ => .ok 0

/-- Witness for C3: on an empty cache (a miss) with the `trends` generator
rejecting, the call rejects and the cache stays empty. -/
theorem generateAnalyticsData_facet_failure_atomic_witness :
    analyticsCacheMiss ([] : DataCache Nat) ("analytics_" ++ "day") 0 ∧
    (∃ f e, genTrendsFail f "day" = Except.error e) ∧
    ∃ e, (generateAnalyticsData genTrendsFail "day" 0 []).result = Except.error e ∧
      (generateAnalyticsData genTrendsFail "day" 0 []).cache = [] ∧
      ∃ f, genTrendsFail f "day" = Except.error e :=
  ⟨Or.inl rfl, ⟨Facet.trends, "boom", rfl⟩,
   generateAnalyticsData_facet_failure_atomic genTrendsFail "day" 0 []
     (Or.inl rfl) ⟨Facet.trends, "boom", rfl⟩⟩

theorem reportBefore_trans {α : Type _} (a b c : Report α)
    (hab : reportBefore a b) (hbc : reportBefore b c) : reportBefore a c := by
  simp only [reportBefore, decide_eq_true_eq] at *
  omega

theorem reportBefore_total {α : Type _} (a b : Report α) :
    reportBefore a b || reportBefore b a := by
  simp only [reportBefore, Bool.or_eq_true, decide_eq_true_eq]
  omega

/-- C4: for every stored report map (hence for every sequence of
`generateReport` calls, whose fresh ids append in call order),
`getAllReports` returns exactly the stored reports, sorted by `generatedAt`
descending, and reports with equal `generatedAt` keep their insertion
order (the filter at any fixed timestamp is unchanged). -/
theorem getAllReports_sorted_stable {α : Type _} (reports : List (String × Report α)) :
    List.Pairwise (fun a b : Report α => b.generatedAt ≤ a.generatedAt)
        (getAllReports reports) ∧
    List.Perm (getAllReports reports) (reports.map Prod.snd) ∧
    ∀ t : Nat, (getAllReports reports).filter (fun r => r.generatedAt == t) =
      (reports.map Prod.snd).filter (fun r => r.generatedAt == t) := by
  refine ⟨?_, ?_, ?_⟩
  · have h := List.sorted_mergeSort reportBefore_trans reportBefore_total
      (reports.map Prod.snd)
    exact h.imp (fun hab => by simpa [reportBefore] using hab)
  · exact List.mergeSort_perm (reports.map Prod.snd) reportBefore
  · intro t
    have hid : ((reports.map Prod.snd).filter (fun r => r.generatedAt == t)).filter
        (fun r => r.generatedAt == t) =
        (reports.map Prod.snd).filter (fun r => r.generatedAt == t) :=
      List.filter_eq_self.mpr (fun a ha => (List.mem_filter.mp ha).2)
    have hsub : List.Sublist ((reports.map Prod.snd).filter (fun r => r.generatedAt == t))
        (getAllReports reports) := by
      apply List.sublist_mergeSort reportBefore_trans reportBefore_total
      · apply List.pairwise_of_forall_mem_list
        intro a ha b hb
        have hpa := (List.mem_filter.mp ha).2
        have hpb := (List.mem_filter.mp hb).2
        simp only [beq_iff_eq] at hpa hpb
        simp [reportBefore, hpa, hpb]
      · exact List.filter_sublist _
    have hperm : List.Perm ((getAllReports reports).filter (fun r => r.generatedAt == t))
        ((reports.map Prod.snd).filter (fun r => r.generatedAt == t)) :=
      (List.mergeSort_perm (reports.map Prod.snd) reportBefore).filter _
    have hsub2 : List.Sublist ((reports.map Prod.snd).filter (fun r => r.generatedAt == t))
        ((getAllReports reports).filter (fun r => r.generatedAt == t)) :=
      hid ▸ hsub.filter (fun r => r.generatedAt == t)
    exact (hsub2.eq_of_length hperm.length_eq.symm).symm

theorem digitChar_ne_T : ∀ n : Nat, (digitChar n != 'T') = true
  | 0 => rfl | 1 => rfl | 2 => rfl | 3 => rfl | 4 => rfl
  | 5 => rfl | 6 => rfl | 7 => rfl | 8 => rfl | _ + 9 => rfl

theorem takeWhile_until (l1 l2 : List Char) (h : ∀ c ∈ l1, (c != 'T') = true) :
    (l1 ++ 'T' :: l2).takeWhile (fun c => c != 'T') = l1 := by
  induction l1 with
  | nil => simp [List.takeWhile_cons]
  | cons a l ih =>
    have ha := h a (by simp)
    simp only [List.cons_append, List.takeWhile_cons, ha, if_true]
    rw [ih (fun c hc => h c (by simp [hc]))]

theorem ymdString_no_T (ms : Nat) : ∀ c ∈ (ymdString ms).data, (c != 'T') = true := by
  have hdata : (ymdString ms).data =
      [digitChar ((civilFromDays (ms / 86400000)).1 / 1000 % 10),
       digitChar ((civilFromDays (ms / 86400000)).1 / 100 % 10),
       digitChar ((civilFromDays (ms / 86400000)).1 / 10 % 10),
       digitChar ((civilFromDays (ms / 86400000)).1 % 10), '-',
       digitChar ((civilFromDays (ms / 86400000)).2.1 / 10 % 10),
       digitChar ((civilFromDays (ms / 86400000)).2.1 % 10), '-',
       digitChar ((civilFromDays (ms / 86400000)).2.2 / 10 % 10),
       digitChar ((civilFromDays (ms / 86400000)).2.2 % 10)] := rfl
  intro c hc
  rw [hdata] at hc
  simp only [List.mem_cons, List.not_mem_nil, or_false] at hc
  rcases hc with h | h | h | h | h | h | h | h | h | h <;> subst h
  all_goals first | exact digitChar_ne_T _ | rfl

theorem isoDatePrefix_eq_ymd (ms : Nat) : isoDatePrefix ms = ymdString ms := by
  have h1 : (toISOString ms).data = (ymdString ms).data ++ 'T' :: (isoTimeSuffix ms).data := by
    simp [toISOString, String.data_append]
  unfold isoDatePrefix
  rw [h1, takeWhile_until _ _ (ymdString_no_T ms)]

/-- C5: `exportReport(id, format)` rejects with the not-found error (and no
filename) exactly when the id is absent from the report store, and otherwise
returns exactly `{name}_{YYYY-MM-DD}.{format}` with the date part being the
report's `generatedAt` rendered as `YYYY-MM-DD` in UTC. -/
theorem exportReport_spec {α : Type _} (reports : List (String × Report α))
    (id fmt : String) :
    (lookupA id reports = none →
      exportReport reports id fmt = .error (ExportError.notFound id)) ∧
    (∀ r : Report α, lookupA id reports = some r →
      exportReport reports id fmt =
        .ok (r.name ++ "_" ++ ymdString r.generatedAt ++ "." ++ fmt)) := by
  constructor
  · intro h
    simp [exportReport, h]
  · intro r h
    simp [exportReport, h, isoDatePrefix_eq_ymd]

/-- A stored report generated at epoch 1733788800000 ms (2024-12-10 UTC),
for the C5 witness. -/
def sampleReport : Report Nat :=
  ⟨"report-1", "Monthly Ops", ReportType.monthly,
   ⟨0, 0, 0, 0, 0, 0, 1733788800000⟩, "admin", 1733788800000⟩

/-- Witness for C5: exporting a missing id rejects with the not-found error;
exporting the stored `Monthly Ops` report as json yields the filename
`Monthly Ops_2024-12-10.json`. -/
theorem exportReport_spec_witness :
    (lookupA "missing-id" ([] : List (String × Report Nat)) = none ∧
      exportReport ([] : List (String × Report Nat)) "missing-id" "json" =
        .error (ExportError.notFound "missing-id")) ∧
    (lookupA "report-1" [("report-1", sampleReport)] = some sampleReport ∧
      exportReport [("report-1", sampleReport)] "report-1" "json" =
        .ok "Monthly Ops_2024-12-10.json") := by
  refine ⟨⟨rfl, (exportReport_spec ([] : List (String × Report Nat)) "missing-id" "json").1 rfl⟩,
          rfl, ?_⟩
  have h := (exportReport_spec [("report-1", sampleReport)] "report-1" "json").2
    sampleReport rfl
  rw [h]
  rfl

/-- C6: `updateDashboard(id, {name: x})` on a stored dashboard rewrites only
`name` and `updatedAt` of the stored record, leaving every other field and
every other stored dashboard untouched; on an absent id any update is a
silent no-op that leaves the whole store unchanged. -/
theorem updateDashboard_name_frame (ds : List (String × Dashboard)) (id x : String)
    (u : DashboardUpdate) (now : Nat) :
    (∀ d : Dashboard, lookupA id ds = some d →
      lookupA id (updateDashboard ds id (nameOnlyUpdate x) now) =
        some { d with name := x, updatedAt := now } ∧
      ∀ id2, id2 ≠ id →
        lookupA id2 (updateDashboard ds id (nameOnlyUpdate x) now) = lookupA id2 ds) ∧
    (lookupA id ds = none → updateDashboard ds id u now = ds) := by
  constructor
  · intro d hd
    have hmerge : mergeDashboard d (nameOnlyUpdate x) now =
        { d with name := x, updatedAt := now } := rfl
    constructor
    · simp only [updateDashboard, hd, hmerge]
      exact lookupA_setA_self _ _ _
    · intro id2 h2
      simp only [updateDashboard, hd]
      exact lookupA_setA_ne _ _ _ h2 _
  · intro h
    simp [updateDashboard, h]

/-- Witness for C6: renaming the seeded dashboard changes only `name` and
`updatedAt`, another id is unaffected, and updating a missing id leaves the
store unchanged. -/
theorem updateDashboard_name_frame_witness :
    (lookupA "dashboard-001" (initializeSampleDashboards 0) = some (sampleDashboard 0) ∧
      lookupA "dashboard-001"
          (updateDashboard (initializeSampleDashboards 0) "dashboard-001"
            (nameOnlyUpdate "Shop Floor") 42) =
        some { sampleDashboard 0 with name := "Shop Floor", updatedAt := 42 } ∧
      lookupA "dashboard-002"
          (updateDashboard (initializeSampleDashboards 0) "dashboard-001"
            (nameOnlyUpdate "Shop Floor") 42) =
        lookupA "dashboard-002" (initializeSampleDashboards 0)) ∧
    (lookupA "missing" (initializeSampleDashboards 0) = none ∧
      updateDashboard (initializeSampleDashboards 0) "missing" (nameOnlyUpdate "X") 42 =
        initializeSampleDashboards 0) := by
  refine ⟨⟨rfl, ?_, ?_⟩, rfl, ?_⟩
  · exact ((updateDashboard_name_frame (initializeSampleDashboards 0) "dashboard-001"
      "Shop Floor" (nameOnlyUpdate "X") 42).1 (sampleDashboard 0) rfl).1
  · exact ((updateDashboard_name_frame (initializeSampleDashboards 0) "dashboard-001"
      "Shop Floor" (nameOnlyUpdate "X") 42).1 (sampleDashboard 0) rfl).2
      "dashboard-002" (by decide)
  · exact (updateDashboard_name_frame (initializeSampleDashboards 0) "missing" "X"
      (nameOnlyUpdate "X") 42).2 rfl

/-- C7 (refuting the claimed behavior): `checkAlerts` consults no inventory
or equipment snapshot at all — with `Math.random()` draws 0.8 and 0.5 it
returns a low-stock warning even though there is no state that could
trigger a threshold, so an empty snapshot does not guarantee an empty
alert list. -/
theorem checkAlerts_random_nonempty :
    checkAlerts (4/5) (1/2) 0 =
      [⟨AlertType.warning, "5 items are running low on stock", Severity.medium, 0⟩] ∧
    checkAlerts (4/5) (1/2) 0 ≠ [] := by
  constructor
  · norm_num [checkAlerts]
  · norm_num [checkAlerts]

/-- The five bucket strings admitted by the TypeScript type annotation of
`generateAnalyticsData`. -/
def validTimeRanges : List String := ["day", "week", "month", "quarter", "year"]

/-- C8 (refuting the claimed behavior): `generateReport` forwards an
arbitrary `timeRange` string through `as any` and `generateAnalyticsData`
performs no runtime validation: the bucket "bogus" is not one of the five
admitted buckets, yet the call succeeds, caches a bundle under
`analytics_bogus` and stores a report built from it. -/
theorem generateReport_accepts_invalid_bucket :
    ("bogus" ∉ validTimeRanges) ∧
    (generateReport genOK "Bogus Report" ReportType.custom "bogus" "user-1" 0 "report-1"
        ([] : DataCache Nat) []).result =
      .ok ⟨"report-1", "Bogus Report", ReportType.custom, ⟨0, 0, 0, 0, 0, 0, 0⟩,
           "user-1", 0⟩ ∧
    lookupA "analytics_bogus"
        (generateReport genOK "Bogus Report" ReportType.custom "bogus" "user-1" 0 "report-1"
          ([] : DataCache Nat) []).cache =
      some ⟨⟨0, 0, 0, 0, 0, 0, 0⟩, 0⟩ ∧
    lookupA "report-1"
        (generateReport genOK "Bogus Report" ReportType.custom "bogus" "user-1" 0 "report-1"
          ([] : DataCache Nat) []).reports =
      some ⟨"report-1", "Bogus Report", ReportType.custom, ⟨0, 0, 0, 0, 0, 0, 0⟩,
            "user-1", 0⟩ :=
  ⟨by decide, rfl, rfl, rfl⟩

/-- C9: the `setInterval` callback catches any per-tick failure and logs it,
so a failing tick produces a log entry instead of an escaping exception and
every other scheduled tick still runs: a run around one failing tick is the
runs of the surrounding ticks with one logged, nothing-emitted effect in
between, and no tick is ever dropped. -/
theorem runBroadcaster_tick_failure_isolated
    (pre post : List (Except String RealTimeMetrics)) (e : String) :
    runBroadcaster (pre ++ Except.error e :: post) =
      runBroadcaster pre ++ ⟨none, some e⟩ :: runBroadcaster post ∧
    (runBroadcaster (pre ++ Except.error e :: post)).length =
      pre.length + 1 + post.length := by
  constructor
  · simp [runBroadcaster, broadcastTick]
  · simp [runBroadcaster]
    omega

/-- C10: a freshly constructed `AnalyticsModule` does not start empty — the
constructor seeds the sample dashboard `dashboard-001` named
"Operations Overview" with three widgets and `isPublic = true`, so
`getDashboard("dashboard-001")` finds it and `getAllDashboards()` returns
exactly that one dashboard before any create call. -/
theorem initializeSampleDashboards_seeds (now : Nat) :
    getDashboard (initializeSampleDashboards now) "dashboard-001" =
      some (sampleDashboard now) ∧
    (sampleDashboard now).name = "Operations Overview" ∧
    (sampleDashboard now).widgets.length = 3 ∧
    (sampleDashboard now).isPublic = true ∧
    getAllDashboards (initializeSampleDashboards now) = [sampleDashboard now] :=
  ⟨rfl, rfl, rfl, rfl, rfl⟩

end MufflerMan
